import Mathlib

/-!
Verification of the Shorts-engagement-data dashboard (src/app.py).

The Python source is shallowly embedded: dictionary accesses with defaults
become Option fields read with getD, Python floats become rationals,
fallible API calls become Except values, and the per-item processing loop
of main() becomes a pure function from detail items to an optional record.
The identifier resolver and the paginated collector described by the design
document are not present in src/app.py; they are modelled from the
specification text and marked as such in their doc comments.
-/

/-- Boolean test that the list `n` occurs at the very start of the list `h`. -/
def beginsWith : List Char → List Char → Bool
  | [], _ => true
  | _ :: _, [] => false
  | n :: ns, h :: hs => n == h && beginsWith ns hs

/-- Boolean test that `n` occurs contiguously somewhere inside `h`. -/
def occursIn : List Char → List Char → Bool
  | n, [] => beginsWith n []
  | n, c :: cs => beginsWith n (c :: cs) || occursIn n cs

/-- Embeds the Python substring operator `needle in hay` used in app.py line 403. -/
def pyIn (needle hay : String) : Bool :=
  occursIn needle.data hay.data

/-- Embeds the Python str.lower calls of app.py lines 387 and 403-405,
character by character. -/
def pyLower (s : String) : String :=
  String.mk (s.data.map Char.toLower)

/-- Numeric value of a list of decimal digit characters, most significant first. -/
def digitsToNat (ds : List Char) : Nat :=
  ds.foldl (fun acc c => acc * 10 + (c.toNat - 48)) 0

/-- Modelled from the spec: one `<digits><marker>` component of an ISO-8601
time duration (the isodate library used by app.py line 131 is external to the
repository).  Returns the parsed value and the remaining characters, or leaves
the input untouched when the component is absent. -/
def parseComp (marker : Char) (cs : List Char) : Option Nat × List Char :=
  let p := cs.span (fun c => c.isDigit)
  match p.2 with
  | c :: rest =>
      if p.1 ≠ [] ∧ c = marker then (some (digitsToNat p.1), rest) else (none, cs)
  | [] => (none, cs)

/-- Modelled from the spec: ISO-8601 duration parsing for the
`PT<h>H<m>M<s>S` fragment described in the design document (hours, minutes,
seconds, each optional, at least one present).  Returns the three components. -/
def parseISOComponents (s : String) : Option (Nat × Nat × Nat) :=
  match s.data with
  | 'P' :: 'T' :: cs =>
      let ph := parseComp 'H' cs
      let pm := parseComp 'M' ph.2
      let ps := parseComp 'S' pm.2
      if ps.2 = [] ∧ (ph.1.isSome ∨ pm.1.isSome ∨ ps.1.isSome) then
        some (ph.1.getD 0, pm.1.getD 0, ps.1.getD 0)
      else none
  | _ => none

/-- Embeds parse_duration (app.py lines 128-134): the parsed duration in total
seconds, with every unparseable string coerced to 0 instead of an error. -/
def parse_duration (duration_str : String) : ℚ :=
  match parseISOComponents duration_str with
  | some hms => ((hms.1 * 3600 + hms.2.1 * 60 + hms.2.2 : Nat) : ℚ)
  | none => 0

/-- Embeds the engagement-rate computation of app.py lines 412-416. -/
def engagement_rate (view_count like_count comment_count : Nat) : ℚ :=
  if view_count > 0 then
    (((like_count : ℚ) + (comment_count : ℚ)) / (view_count : ℚ)) * 100
  else 0

/-- Embeds the outlier-score computation of app.py lines 418-423.  The
channel average is `none` when the channel id is missing from the
channel_avg_views dictionary. -/
def outlier_multiplier (view_count : Nat) (er : ℚ) (channel_avg : Option ℚ) : ℚ :=
  match channel_avg with
  | some avg => if avg > 0 then ((view_count : ℚ) * (1 + er / 100)) / avg else 0
  | none => 0

/-- Statistics part of a channels.list response item (app.py lines 344-346);
absent keys are `none`. -/
structure ChannelStatistics where
  viewCount : Option Nat
  videoCount : Option Nat

/-- Embeds the per-channel average computation of app.py lines 343-350 from
the items of one channels.list response. -/
def channel_avg_of (items : List ChannelStatistics) : ℚ :=
  match items with
  | [] => 0
  | stats :: _ =>
      let total_views := stats.viewCount.getD 0
      let total_videos := stats.videoCount.getD 0
      if total_videos > 0 then (total_views : ℚ) / (total_videos : ℚ) else 0

/-- One item of a videos.list response (app.py lines 388-400); every
dictionary key that may be absent is an Option field. -/
structure DetailItem where
  id : String
  title : Option String
  description : Option String
  tags : Option (List String)
  channelTitle : Option String
  channelId : Option String
  thumbnail : Option String
  publishedAt : Option String
  viewCount : Option Nat
  likeCount : Option Nat
  commentCount : Option Nat
  duration : Option String

/-- Embeds the keyword rejection test of app.py lines 402-406: the item is
skipped when the lowercased keyword occurs in none of title, description
and tags. -/
def keyword_excluded (keyword_lower title description : String) (tags : List String) : Bool :=
  (!(pyIn keyword_lower (pyLower title))) && (!(pyIn keyword_lower (pyLower description)))
    && (!(tags.any (fun tag => pyIn keyword_lower (pyLower tag))))

/-- Embeds the minimum-outlier rejection test of app.py lines 425-426. -/
def min_outlier_excluded (multiplier min_outlier_multiplier : ℚ) : Bool :=
  decide (multiplier ≤ min_outlier_multiplier)

/-- Embeds the duration rejection tests of app.py lines 430-433. -/
def duration_excluded (video_type : String) (duration_seconds : ℚ) : Bool :=
  (video_type == "Short (< 3 mins)" && decide (duration_seconds ≥ 180))
    || (video_type == "Long (>= 3 mins)" && decide (duration_seconds < 180))

/-- Engagement rate of one detail item, from the statistics defaults of
app.py lines 408-416. -/
def item_engagement (item : DetailItem) : ℚ :=
  engagement_rate (item.viewCount.getD 0) (item.likeCount.getD 0) (item.commentCount.getD 0)

/-- Outlier multiplier of one detail item (app.py lines 418-423), given the
channel_avg_views dictionary as a partial map. -/
def item_multiplier (channel_avg_views : String → Option ℚ) (item : DetailItem) : ℚ :=
  outlier_multiplier (item.viewCount.getD 0) (item_engagement item)
    (channel_avg_views (item.channelId.getD ""))

/-- One record of the results list built by app.py lines 435-448. -/
structure VideoRecord where
  video_id : String
  title : String
  channel : String
  channel_id : String
  description : String
  view_count : Nat
  duration : ℚ
  outlier_multiplier : ℚ
  thumbnail : String
  published_at : String
  url : String
  engagement_rate : ℚ
deriving DecidableEq

/-- Embeds one iteration of the detail-item loop of app.py lines 388-448;
each `continue` becomes `none`. -/
def process_item (keyword_lower : String) (min_outlier_multiplier : ℚ) (video_type : String)
    (channel_avg_views : String → Option ℚ) (item : DetailItem) : Option VideoRecord :=
  if keyword_excluded keyword_lower (item.title.getD "") (item.description.getD "")
      (item.tags.getD []) then none
  else if min_outlier_excluded (item_multiplier channel_avg_views item)
      min_outlier_multiplier then none
  else if duration_excluded video_type (parse_duration (item.duration.getD "PT0S")) then none
  else some {
    video_id := item.id,
    title := item.title.getD "",
    channel := item.channelTitle.getD "",
    channel_id := item.channelId.getD "",
    description := item.description.getD "",
    view_count := item.viewCount.getD 0,
    duration := parse_duration (item.duration.getD "PT0S"),
    outlier_multiplier := item_multiplier channel_avg_views item,
    thumbnail := item.thumbnail.getD "",
    published_at := (item.publishedAt.getD "").take 10,
    url := "https://www.youtube.com/watch?v=" ++ item.id,
    engagement_rate := item_engagement item }

/-- Embeds the sorting step of app.py lines 450-453: a stable descending sort
on the key selected by sort_option. -/
def sort_results (sort_option : String) (results : List VideoRecord) : List VideoRecord :=
  if sort_option == "View Count" then
    results.mergeSort (fun a b => decide (b.view_count ≤ a.view_count))
  else
    results.mergeSort (fun a b => decide (b.outlier_multiplier ≤ a.outlier_multiplier))

/-- Embeds the filtering, sorting and truncation pipeline of app.py
lines 386-455 applied to the fetched detail items. -/
def search_results (keyword : String) (video_type sort_option : String)
    (min_outlier_multiplier : ℚ) (channel_avg_views : String → Option ℚ)
    (detail_items : List DetailItem) : List VideoRecord :=
  (sort_results sort_option
    (detail_items.filterMap
      (process_item (pyLower keyword) min_outlier_multiplier video_type channel_avg_views))).take 10

/-- Outcome of one search run of main(): either a rendered results list or a
single user-visible message. -/
inductive MainOutcome
  | shown (results : List VideoRecord)
  | message (text : String)
deriving DecidableEq

/-- Embeds app.py lines 366-368 and 386-487: the empty-search guard followed
by the results pipeline and the empty-results message. -/
def search_pipeline (keyword : String) (video_type sort_option : String)
    (min_outlier_multiplier : ℚ) (channel_avg_views : String → Option ℚ)
    (all_video_ids : List String) (detail_items : List DetailItem) : MainOutcome :=
  if all_video_ids = [] then
    MainOutcome.message "No videos found across the selected channels."
  else
    let results := search_results keyword video_type sort_option
      min_outlier_multiplier channel_avg_views detail_items
    if results = [] then MainOutcome.message "No videos match the criteria."
    else MainOutcome.shown results

/-- Embeds the try/except of app.py lines 325 and 497-498: any exception
raised by the body is turned into a displayed message, never re-raised. -/
def run_main (body : Except String MainOutcome) : MainOutcome :=
  match body with
  | Except.ok o => o
  | Except.error e => MainOutcome.message ("An error occurred: " ++ e)

/-- Embeds html.escape as used by app.py lines 206 and 214: the five special
characters are rewritten to entities, all other characters are kept. -/
def htmlEscapeChar (c : Char) : String :=
  if c == '&' then "&amp;"
  else if c == '<' then "&lt;"
  else if c == '>' then "&gt;"
  else if c == '"' then "&quot;"
  else if c == Char.ofNat 39 then "&#x27;"
  else String.singleton c

/-- Embeds html.escape over a whole string. -/
def htmlEscape (s : String) : String :=
  s.data.foldl (fun acc c => acc ++ htmlEscapeChar c) ""

/-- Embeds the tag-removing substitution of app.py line 210: every maximal
segment from a `<` to the next `>` is deleted; a `<` with no later `>` is
kept. -/
def stripTagsList : List Char → List Char
  | [] => []
  | c :: cs =>
      if c == '<' && cs.contains '>' then
        stripTagsList ((cs.dropWhile (fun ch => ch != '>')).drop 1)
      else c :: stripTagsList cs
termination_by l => l.length
decreasing_by
  · have h1 : ((cs.dropWhile (fun ch => ch != '>')).drop 1).length ≤
        (cs.dropWhile (fun ch => ch != '>')).length := by
      rw [List.length_drop]; omega
    have h2 : (cs.dropWhile (fun ch => ch != '>')).length ≤ cs.length :=
      (List.dropWhile_sublist (fun ch => ch != '>')).length_le
    simp only [List.length_cons]
    omega
  · simp only [List.length_cons]
    omega

/-- String form of the tag-removing substitution. -/
def stripTags (s : String) : String :=
  String.mk (stripTagsList s.data)

/-- Snippet of one top-level comment in a commentThreads.list response
(app.py lines 198-219); likeCount may be absent. -/
structure CommentSnippet where
  textDisplay : String
  authorDisplayName : String
  likeCount : Option Nat
  publishedAt : String

/-- One entry of the comments list built by app.py lines 213-219. -/
structure TopComment where
  author : String
  text : String
  text_safe : String
  like_count : Nat
  published_at : String
deriving DecidableEq

/-- Embeds the per-comment record construction of app.py lines 199-219. -/
def processCommentItem (comment : CommentSnippet) : TopComment :=
  let text_display := comment.textDisplay
  let text_safe := ((stripTags (htmlEscape text_display)).replace "&nbsp;" " ")
  { author := htmlEscape comment.authorDisplayName,
    text := text_display,
    text_safe := text_safe,
    like_count := comment.likeCount.getD 0,
    published_at := comment.publishedAt.take 10 }

/-- Embeds fetch_top_comments (app.py lines 182-232): the API response either
raises (Except.error) or yields a list of comment snippets; every raised
exception is caught and turned into the empty list. -/
def fetch_top_comments (response : Except String (List CommentSnippet))
    (max_comments : Nat := 5) : List TopComment :=
  match response with
  | Except.error _ => []
  | Except.ok items =>
      let comments := items.map processCommentItem
      (comments.mergeSort (fun a b => decide (b.like_count ≤ a.like_count))).take max_comments

/-- Modelled from the spec: the four resolution modes of the identifier
resolver (section 3 of the design document); the resolver itself is not part
of src/app.py. -/
inductive ResolutionMode
  | ExplicitId
  | Username
  | CustomHandle
  | Raw
deriving DecidableEq

/-- Modelled from the spec: a word or hyphen character of the explicit-ID
pattern. -/
def isWordOrHyphen (c : Char) : Bool :=
  c.isAlphanum || c == '_' || c == '-'

/-- Modelled from the spec: the explicit-ID shape, `UC` followed by exactly
21 word or hyphen characters. -/
def isExplicitIdShape (s : String) : Bool :=
  s.length == 23 && beginsWith "UC".data s.data && (s.data.drop 2).all isWordOrHyphen

/-- Modelled from the spec: the URL path markers `channel/`, `user/` and `c/`
mapped to a mode together with the identifier that follows the marker. -/
def pathMarkerMode : List String → Option (ResolutionMode × String)
  | [] => none
  | "channel" :: x :: _ => some (ResolutionMode.ExplicitId, x)
  | "user" :: x :: _ => some (ResolutionMode.Username, x)
  | "c" :: x :: _ => some (ResolutionMode.CustomHandle, x)
  | _ :: rest => pathMarkerMode rest

/-- Modelled from the spec: classification of a channel reference (section
4.1 step 1) with the precedence explicit-ID match, then URL path marker, then
explicit-ID match on the final path segment, then final segment as custom
handle, then raw. -/
def classify (reference : String) : ResolutionMode × String :=
  if isExplicitIdShape reference then (ResolutionMode.ExplicitId, reference)
  else
    let segs := reference.splitOn "/"
    match pathMarkerMode segs with
    | some m => m
    | none =>
        if segs.length > 1 then
          let final := segs.getLastD reference
          if isExplicitIdShape final then (ResolutionMode.ExplicitId, final)
          else (ResolutionMode.CustomHandle, final)
        else (ResolutionMode.Raw, reference)

/-- Modelled from the spec: the resolve operation (section 4.1).  The two
network endpoints are oracles; the second component of the result counts the
network calls made. -/
def resolve (reference : String) (usernameLookup : String → Option String)
    (channelSearch : String → Option String) : Option String × Nat :=
  match classify reference with
  | (ResolutionMode.ExplicitId, ident) => (some ident, 0)
  | (ResolutionMode.Username, ident) =>
      match usernameLookup ident with
      | some cid => (some cid, 1)
      | none => (channelSearch ident, 2)
  | (ResolutionMode.CustomHandle, ident) => (channelSearch ident, 1)
  | (ResolutionMode.Raw, ident) => (channelSearch ident, 1)

/-- Modelled from the spec: one playlist item of the paginated collector
(section 4.2), already joined with its statistics and parsed duration. -/
structure UploadItem where
  durationSeconds : ℚ
  viewCount : Nat
  likeCount : Nat
  commentCount : Nat
deriving DecidableEq

/-- Modelled from the spec: one accumulated record of the collector, carrying
the fields the spec derives per kept item. -/
structure CollectedRecord where
  durationSeconds : ℚ
  engagementRate : ℚ
deriving DecidableEq

/-- Modelled from the spec: the record derived from a kept upload item
(section 4.2 step 6). -/
def mkCollectedRecord (it : UploadItem) : CollectedRecord :=
  { durationSeconds := it.durationSeconds,
    engagementRate := engagement_rate it.viewCount it.likeCount it.commentCount }

/-- Modelled from the spec: the duration test of the collector (section 4.2
step 5, strictly below the threshold). -/
def qualifies (threshold : ℚ) (it : UploadItem) : Bool :=
  decide (it.durationSeconds < threshold)

/-- Modelled from the spec: one page of the collector loop (section 4.2
steps 5-6): walk the page items in order, keep qualifying items, and stop
accumulating once the cap is reached, abandoning the rest of the page. -/
def collect_page (threshold : ℚ) (cap : Nat) : List UploadItem → List CollectedRecord → List CollectedRecord
  | [], acc => acc
  | it :: rest, acc =>
      if cap ≤ acc.length then acc
      else if qualifies threshold it then
        collect_page threshold cap rest (acc ++ [mkCollectedRecord it])
      else collect_page threshold cap rest acc

/-- Modelled from the spec: the page loop of the collector (section 4.2
steps 1-7).  The upstream is the sequence of page requests: Except.error is a
failed request, the cursor chain ends with the list.  The second component
counts the page requests issued. -/
def collect_go (threshold : ℚ) (cap : Nat) :
    List (Except Unit (List UploadItem)) → List CollectedRecord → Nat →
    List CollectedRecord × Nat
  | [], acc, n => (acc, n)
  | page :: rest, acc, n =>
      match page with
      | Except.error _ => (acc, n + 1)
      | Except.ok items =>
          if items = [] then (acc, n + 1)
          else
            let acc2 := collect_page threshold cap items acc
            if cap ≤ acc2.length then (acc2, n + 1)
            else collect_go threshold cap rest acc2 (n + 1)

/-- Modelled from the spec: the collect contract of section 4.2, returning
the accumulated records and the number of page requests issued. -/
def collect (pages : List (Except Unit (List UploadItem))) (threshold : ℚ)
    (cap : Nat) : List CollectedRecord × Nat :=
  collect_go threshold cap pages [] 0

/-- Modelled from the spec: the uncapped qualifying stream of the collector,
everything it would gather before any failed or empty page with no cap. -/
def collect_all (threshold : ℚ) : List (Except Unit (List UploadItem)) → List CollectedRecord
  | [] => []
  | page :: rest =>
      match page with
      | Except.error _ => []
      | Except.ok items =>
          if items = [] then []
          else ((items.filter (qualifies threshold)).map mkCollectedRecord)
            ++ collect_all threshold rest

/-- Characterization of beginsWith: the needle is an initial run of the hay. -/
lemma beginsWith_iff : ∀ (n h : List Char), beginsWith n h = true ↔ ∃ t, h = n ++ t
  | [], h => by
      simp [beginsWith]
  | c :: cs, [] => by
      simp [beginsWith]
  | c :: cs, b :: bs => by
      simp only [beginsWith, Bool.and_eq_true, beq_iff_eq]
      constructor
      · rintro ⟨rfl, hb⟩
        obtain ⟨t, rfl⟩ := (beginsWith_iff cs bs).mp hb
        exact ⟨t, rfl⟩
      · rintro ⟨t, ht⟩
        injection ht with h1 h2
        subst h1
        exact ⟨rfl, (beginsWith_iff cs bs).mpr ⟨t, h2⟩⟩

/-- Characterization of occursIn: the needle is a contiguous run of the hay. -/
lemma occursIn_iff : ∀ (n h : List Char), occursIn n h = true ↔ ∃ pre post, h = pre ++ n ++ post
  | n, [] => by
      simp only [occursIn, beginsWith_iff]
      constructor
      · rintro ⟨t, ht⟩
        have h0 := List.append_eq_nil.mp ht.symm
        exact ⟨[], [], by simp [h0.1]⟩
      · rintro ⟨pre, post, hp⟩
        have h1 := List.append_eq_nil.mp hp.symm
        have h2 := List.append_eq_nil.mp h1.1
        exact ⟨[], by simp [h2.2]⟩
  | n, c :: cs => by
      simp only [occursIn, Bool.or_eq_true, beginsWith_iff, occursIn_iff n cs]
      constructor
      · rintro (⟨t, ht⟩ | ⟨pre, post, hp⟩)
        · exact ⟨[], t, by simpa using ht⟩
        · exact ⟨c :: pre, post, by simp [hp]⟩
      · rintro ⟨pre, post, hp⟩
        cases pre with
        | nil => exact Or.inl ⟨post, by simpa using hp⟩
        | cons a as =>
            simp only [List.cons_append] at hp
            injection hp with h1 h2
            exact Or.inr ⟨as, post, h2⟩

/-- Characterization of the Python substring operator. -/
lemma pyIn_iff (needle hay : String) :
    pyIn needle hay = true ↔ ∃ pre post, hay.data = pre ++ needle.data ++ post := by
  simp [pyIn, occursIn_iff]

/-- Reduction of the duration test for the short-video selection. -/
lemma duration_excluded_short (d : ℚ) :
    duration_excluded "Short (< 3 mins)" d = decide (180 ≤ d) := by
  have h1 : (("Short (< 3 mins)" : String) == "Short (< 3 mins)") = true := by decide
  have h2 : (("Short (< 3 mins)" : String) == "Long (>= 3 mins)") = false := by decide
  simp [duration_excluded, h1, h2]

/-- One page of the collector keeps the qualifying items in order, truncated
to the remaining room under the cap. -/
lemma collect_page_eq (threshold : ℚ) (cap : Nat) :
    ∀ (items : List UploadItem) (acc : List CollectedRecord), acc.length ≤ cap →
      collect_page threshold cap items acc =
        acc ++ (((items.filter (qualifies threshold)).map mkCollectedRecord).take
          (cap - acc.length))
  | [], acc, _ => by
      simp [collect_page]
  | it :: rest, acc, h => by
      by_cases hc : cap ≤ acc.length
      · have heq : acc.length = cap := le_antisymm h hc
        simp [collect_page, hc, heq]
      · by_cases hq : qualifies threshold it = true
        · simp only [collect_page, if_neg hc, if_pos hq]
          rw [collect_page_eq threshold cap rest (acc ++ [mkCollectedRecord it])
            (by simp only [List.length_append, List.length_singleton]; omega)]
          simp only [List.filter_cons, hq, if_pos, List.map_cons,
            List.length_append, List.length_singleton]
          have hk : cap - acc.length = (cap - (acc.length + 1)) + 1 := by omega
          rw [hk, List.take_succ_cons, List.append_assoc]
          simp
        · have hq2 : qualifies threshold it = false := Bool.not_eq_true _ |>.mp hq
          simp only [collect_page, if_neg hc, hq2, if_neg, Bool.false_eq_true,
            not_false_eq_true]
          rw [collect_page_eq threshold cap rest acc h]
          simp [List.filter_cons, hq2]

/-- The page loop of the collector gathers the uncapped qualifying stream,
truncated to the remaining room under the cap. -/
lemma collect_go_eq (threshold : ℚ) (cap : Nat) :
    ∀ (pages : List (Except Unit (List UploadItem))) (acc : List CollectedRecord) (n : Nat),
      acc.length ≤ cap →
      (collect_go threshold cap pages acc n).1 =
        acc ++ ((collect_all threshold pages).take (cap - acc.length))
  | [], acc, n, _ => by
      simp [collect_go, collect_all]
  | page :: rest, acc, n, h => by
      match page with
      | Except.error e =>
          simp [collect_go, collect_all]
      | Except.ok items =>
          by_cases hi : items = []
          · simp [collect_go, collect_all, hi]
          · simp only [collect_go, collect_all, hi, if_neg, ite_false]
            have hpage := collect_page_eq threshold cap items acc h
            by_cases hstop : cap ≤ (collect_page threshold cap items acc).length
            · rw [if_pos hstop, hpage]
              rw [hpage, List.length_append, List.length_take] at hstop
              rw [List.take_append_eq_append_take]
              have hz : cap - acc.length -
                  ((items.filter (qualifies threshold)).map mkCollectedRecord).length = 0 := by
                omega
              rw [hz]
              simp
            · rw [if_neg hstop]
              have hlt : (collect_page threshold cap items acc).length < cap := by omega
              rw [collect_go_eq threshold cap rest _ (n + 1) (le_of_lt hlt)]
              rw [hpage] at hlt ⊢
              rw [List.length_append, List.length_take] at hlt
              have hQ : ((items.filter (qualifies threshold)).map mkCollectedRecord).length
                  < cap - acc.length := by omega
              have htq := List.take_of_length_le (le_of_lt hQ)
              rw [htq, List.take_append_eq_append_take, htq, List.append_assoc,
                List.length_append]
              have hsub : cap -
                  (acc.length +
                    ((items.filter (qualifies threshold)).map mkCollectedRecord).length) =
                  cap - acc.length -
                    ((items.filter (qualifies threshold)).map mkCollectedRecord).length := by
                omega
              rw [hsub]

/-- The collector output is the uncapped qualifying stream truncated to cap. -/
lemma collect_eq_take (pages : List (Except Unit (List UploadItem))) (threshold : ℚ)
    (cap : Nat) :
    (collect pages threshold cap).1 = (collect_all threshold pages).take cap := by
  have h := collect_go_eq threshold cap pages [] 0 (by simp)
  simpa [collect] using h

/-- Once the cap is reached inside the processed pages, appending further
upstream pages changes neither the output nor the number of page requests. -/
lemma collect_go_stop (threshold : ℚ) (cap : Nat) :
    ∀ (pages : List (Except Unit (List UploadItem))) (acc : List CollectedRecord) (n : Nat)
      (extra : List (Except Unit (List UploadItem))),
      acc.length < cap →
      cap ≤ (collect_go threshold cap pages acc n).1.length →
      collect_go threshold cap (pages ++ extra) acc n = collect_go threshold cap pages acc n
  | [], acc, n, extra, hlt, hge => by
      simp only [collect_go] at hge
      exact absurd hge (by omega)
  | page :: rest, acc, n, extra, hlt, hge => by
      match page with
      | Except.error e =>
          simp [collect_go]
      | Except.ok items =>
          by_cases hi : items = []
          · simp [collect_go, hi]
          · by_cases hstop : cap ≤ (collect_page threshold cap items acc).length
            · simp [collect_go, hi, hstop]
            · simp only [collect_go, hi, ite_false, if_neg hstop, List.cons_append] at hge ⊢
              have hlt2 : (collect_page threshold cap items acc).length < cap := by omega
              exact collect_go_stop threshold cap rest _ (n + 1) extra hlt2 hge

/-- Claim C1: the computed engagement rate equals
(likeCount + commentCount) / viewCount * 100 when viewCount is positive,
equals 0 when viewCount is 0 regardless of likes and comments, and the
scenario viewCount 1000, likeCount 50, commentCount 10 yields 6 percent. -/
theorem c1_engagement_rate_def (view_count like_count comment_count : Nat) :
    (0 < view_count →
      engagement_rate view_count like_count comment_count =
        (((like_count : ℚ) + (comment_count : ℚ)) / (view_count : ℚ)) * 100)
    ∧ engagement_rate 0 like_count comment_count = 0
    ∧ engagement_rate 1000 50 10 = 6 := by
  refine ⟨fun h => ?_, ?_, ?_⟩
  · simp [engagement_rate, h]
  · simp [engagement_rate]
  · norm_num [engagement_rate]

/-- Witness for C1 at the scenario input viewCount 1000, likeCount 50,
commentCount 10. -/
theorem c1_engagement_rate_def_witness :
    engagement_rate 1000 50 10 = (((50 : ℚ) + 10) / 1000) * 100 := by
  have h := (c1_engagement_rate_def 1000 50 10).1 (by norm_num)
  simpa using h

/-- Claim C2: the duration filter of the short-video selection is
boundary-exclusive with threshold 180 seconds: durations strictly below 180
are retained, durations at or above 180 are excluded, and an excluded
duration makes the item loop drop the record. -/
theorem c2_duration_filter_boundary (d : ℚ) (kw : String) (mo : ℚ)
    (cav : String → Option ℚ) (item : DetailItem) :
    (d < 180 → duration_excluded "Short (< 3 mins)" d = false)
    ∧ (180 ≤ d → duration_excluded "Short (< 3 mins)" d = true)
    ∧ (duration_excluded "Short (< 3 mins)"
        (parse_duration (item.duration.getD "PT0S")) = true →
        process_item kw mo "Short (< 3 mins)" cav item = none) := by
  refine ⟨fun h => ?_, fun h => ?_, fun h => ?_⟩
  · rw [duration_excluded_short]
    exact decide_eq_false (not_le.mpr h)
  · rw [duration_excluded_short]
    exact decide_eq_true h
  · by_cases hk : keyword_excluded kw (item.title.getD "") (item.description.getD "")
        (item.tags.getD []) = true
    · simp [process_item, hk]
    · by_cases hm : min_outlier_excluded (item_multiplier cav item) mo = true
      · simp [process_item, hk, hm]
      · simp [process_item, hk, hm, h]

/-- Witness for C2 at the boundary durations 179 and 180. -/
theorem c2_duration_filter_boundary_witness :
    duration_excluded "Short (< 3 mins)" 179 = false
    ∧ duration_excluded "Short (< 3 mins)" 180 = true := by
  constructor
  · exact (c2_duration_filter_boundary 179 "" 0 (fun _ => none)
      ⟨"", none, none, none, none, none, none, none, none, none, none, none⟩).1 (by norm_num)
  · exact (c2_duration_filter_boundary 180 "" 0 (fun _ => none)
      ⟨"", none, none, none, none, none, none, none, none, none, none, none⟩).2.1 (by norm_num)

/-- Claim C3: duration parsing turns a parsed ISO-8601 duration into
hours*3600 + minutes*60 + seconds total seconds, turns every malformed
string into 0 instead of an error, and a malformed duration therefore always
passes the strictly-below-threshold duration filter. -/
theorem c3_parse_duration_total (s : String) :
    (∀ h m sec : Nat, parseISOComponents s = some (h, m, sec) →
      parse_duration s = ((h * 3600 + m * 60 + sec : Nat) : ℚ))
    ∧ (parseISOComponents s = none → parse_duration s = 0)
    ∧ (parseISOComponents s = none →
        duration_excluded "Short (< 3 mins)" (parse_duration s) = false) := by
  refine ⟨fun h m sec hp => ?_, fun hp => ?_, fun hp => ?_⟩
  · simp [parse_duration, hp]
  · simp [parse_duration, hp]
  · have h0 : parse_duration s = 0 := by simp [parse_duration, hp]
    rw [duration_excluded_short, h0]
    norm_num

/-- Witness for C3 at a well-formed and a malformed duration string. -/
theorem c3_parse_duration_total_witness :
    parse_duration "PT1H2M3S" = 3723 ∧ parse_duration "banana" = 0 := by
  constructor
  · have h := (c3_parse_duration_total "PT1H2M3S").1 1 2 3 (by rfl)
    rw [h]
    norm_num
  · exact (c3_parse_duration_total "banana").2.1 (by rfl)

/-- Claim C5: every reference matching the explicit-ID shape (UC followed by
21 word or hyphen characters) is resolved to itself with zero network calls. -/
theorem c5_resolve_explicit_id (reference : String)
    (usernameLookup channelSearch : String → Option String)
    (h : isExplicitIdShape reference = true) :
    resolve reference usernameLookup channelSearch = (some reference, 0) := by
  have hc : classify reference = (ResolutionMode.ExplicitId, reference) := by
    simp [classify, h]
  simp [resolve, hc]

/-- Witness for C5 at the explicit-ID reference of the spec scenario. -/
theorem c5_resolve_explicit_id_witness :
    resolve "UCabcdefghijklmnopqrst1" (fun _ => none) (fun _ => none) =
      (some "UCabcdefghijklmnopqrst1", 0) :=
  c5_resolve_explicit_id "UCabcdefghijklmnopqrst1" (fun _ => none) (fun _ => none) (by decide)

/-- Claim C6: the outlier multiplier is the engagement-adjusted views
viewCount * (1 + engagementRate/100) divided by the channel average views,
is 0 when the average is unknown or not positive, and the channel average is
total views divided by total video count. -/
theorem c6_outlier_multiplier_def (view_count : Nat) (er : ℚ) (channel_avg : Option ℚ) :
    (∀ avg, channel_avg = some avg → 0 < avg →
      outlier_multiplier view_count er channel_avg =
        ((view_count : ℚ) * (1 + er / 100)) / avg)
    ∧ (channel_avg = none → outlier_multiplier view_count er channel_avg = 0)
    ∧ (∀ avg, channel_avg = some avg → avg ≤ 0 →
        outlier_multiplier view_count er channel_avg = 0)
    ∧ (∀ total_views total_videos : Nat, 0 < total_videos →
        channel_avg_of [⟨some total_views, some total_videos⟩] =
          (total_views : ℚ) / (total_videos : ℚ))
    ∧ channel_avg_of [] = 0 := by
  refine ⟨fun avg ha hpos => ?_, fun ha => ?_, fun avg ha hnp => ?_, fun tv tvid hpos => ?_, ?_⟩
  · simp [outlier_multiplier, ha, hpos]
  · simp [outlier_multiplier, ha]
  · simp [outlier_multiplier, ha, not_lt.mpr hnp]
  · simp [channel_avg_of, hpos]
  · simp [channel_avg_of]

/-- Witness for C6 at views 1000, engagement rate 6 and channel average 200. -/
theorem c6_outlier_multiplier_def_witness :
    outlier_multiplier 1000 6 (some 200) = ((1000 : ℚ) * (1 + 6 / 100)) / 200 :=
  (c6_outlier_multiplier_def 1000 6 (some 200)).1 200 rfl (by norm_num)

/-- Claim C7: every failure is non-fatal at the step level: a raised comments
call yields the empty list, a raised search body yields a displayed message
and no exception, a malformed duration yields 0 seconds, and an empty search
result yields a no-result message. -/
theorem c7_failures_nonfatal (e : String) (max_comments : Nat) (kw vt so : String)
    (mo : ℚ) (cav : String → Option ℚ) (detail_items : List DetailItem) (s : String) :
    fetch_top_comments (Except.error e) max_comments = []
    ∧ run_main (Except.error e) = MainOutcome.message ("An error occurred: " ++ e)
    ∧ (parseISOComponents s = none → parse_duration s = 0)
    ∧ search_pipeline kw vt so mo cav [] detail_items =
        MainOutcome.message "No videos found across the selected channels." := by
  refine ⟨rfl, rfl, fun hp => ?_, ?_⟩
  · simp [parse_duration, hp]
  · simp [search_pipeline]

/-- Witness for C7 at a failing comments call and a malformed duration. -/
theorem c7_failures_nonfatal_witness :
    fetch_top_comments (Except.error "HttpError 403") 5 = []
    ∧ parse_duration "oops" = 0 := by
  refine ⟨(c7_failures_nonfatal "HttpError 403" 5 "" "" "" 0 (fun _ => none) [] "oops").1, ?_⟩
  exact (c7_failures_nonfatal "HttpError 403" 5 "" "" "" 0 (fun _ => none) [] "oops").2.2.1
    (by rfl)

/-- Claim C8: the minimum-outlier filter is strict: a video is kept only when
its multiplier is strictly greater than the minimum, a multiplier exactly
equal to the minimum is excluded, and an excluded multiplier makes the item
loop drop the record. -/
theorem c8_min_outlier_strict (m mn : ℚ) (kw vt : String) (cav : String → Option ℚ)
    (item : DetailItem) :
    (min_outlier_excluded m mn = false ↔ mn < m)
    ∧ min_outlier_excluded m m = true
    ∧ (min_outlier_excluded (item_multiplier cav item) mn = true →
        process_item kw mn vt cav item = none) := by
  refine ⟨?_, ?_, fun h => ?_⟩
  · simp [min_outlier_excluded, not_le]
  · simp [min_outlier_excluded]
  · by_cases hk : keyword_excluded kw (item.title.getD "") (item.description.getD "")
        (item.tags.getD []) = true
    · simp [process_item, hk]
    · simp [process_item, hk, h]

/-- Witness for C8: a video whose multiplier is 0 is dropped under minimum 2. -/
theorem c8_min_outlier_strict_witness :
    process_item "" 2 "All" (fun _ => none)
      ⟨"", none, none, none, none, none, none, none, none, none, none, none⟩ = none :=
  (c8_min_outlier_strict 0 2 "" "All" (fun _ => none)
    ⟨"", none, none, none, none, none, none, none, none, none, none, none⟩).2.2 (by decide)

/-- Claim C9: keyword matching is case-insensitive over title, description
and tags: an item passes the keyword test exactly when the lowercased
keyword occurs as a substring of the lowercased title, of the lowercased
description, or of some lowercased tag; a failed test drops the item. -/
theorem c9_keyword_case_insensitive (keyword title description : String)
    (tags : List String) (keyword_lower : String) (mo : ℚ) (vt : String)
    (cav : String → Option ℚ) (item : DetailItem) :
    (keyword_excluded (pyLower keyword) title description tags = false ↔
      (∃ pre post, (pyLower title).data = pre ++ (pyLower keyword).data ++ post)
      ∨ (∃ pre post, (pyLower description).data = pre ++ (pyLower keyword).data ++ post)
      ∨ (∃ tag ∈ tags, ∃ pre post, (pyLower tag).data = pre ++ (pyLower keyword).data ++ post))
    ∧ (keyword_excluded keyword_lower (item.title.getD "") (item.description.getD "")
        (item.tags.getD []) = true →
        process_item keyword_lower mo vt cav item = none) := by
  constructor
  · have hb : ∀ (b1 b2 b3 : Bool), ((!b1) && (!b2) && (!b3)) = false ↔
        (b1 = true ∨ b2 = true ∨ b3 = true) := by decide
    rw [keyword_excluded, hb, pyIn_iff, pyIn_iff, List.any_eq_true]
    simp only [pyIn_iff]
  · intro h
    simp [process_item, h]

/-- Witness for C9: a detail item mentioning the keyword in no field is
dropped. -/
theorem c9_keyword_case_insensitive_witness :
    process_item "cat" 0 "All" (fun _ => none)
      ⟨"v1", some "dog video", some "about dogs", some ["pets"], none, none, none, none,
        some 10, some 1, some 1, none⟩ = none :=
  (c9_keyword_case_insensitive "cat" "" "" [] "cat" 0 "All" (fun _ => none)
    ⟨"v1", some "dog video", some "about dogs", some ["pets"], none, none, none, none,
      some 10, some 1, some 1, none⟩).2 (by decide)

/-- Claim C10: the returned result list is sorted in non-increasing order of
the selected key, by view count when the sort option is View Count and by
outlier multiplier otherwise, and the truncation to the cap of 10 happens
after sorting. -/
theorem c10_sorted_before_cap (sort_option : String) (rs : List VideoRecord) :
    (sort_results sort_option rs).Perm rs
    ∧ (sort_option = "View Count" →
        (sort_results sort_option rs).Pairwise (fun a b => b.view_count ≤ a.view_count))
    ∧ (sort_option ≠ "View Count" →
        (sort_results sort_option rs).Pairwise
          (fun a b => b.outlier_multiplier ≤ a.outlier_multiplier))
    ∧ ∀ (kw vt : String) (mo : ℚ) (cav : String → Option ℚ) (items : List DetailItem),
        search_results kw vt sort_option mo cav items =
          (sort_results sort_option
            (items.filterMap (process_item (pyLower kw) mo vt cav))).take 10 := by
  refine ⟨?_, fun h => ?_, fun h => ?_, fun kw vt mo cav items => rfl⟩
  · unfold sort_results
    split
    · exact List.mergeSort_perm rs _
    · exact List.mergeSort_perm rs _
  · subst h
    have htrans : ∀ a b c : VideoRecord,
        decide (b.view_count ≤ a.view_count) = true →
        decide (c.view_count ≤ b.view_count) = true →
        decide (c.view_count ≤ a.view_count) = true := by
      intro a b c h1 h2
      simp only [decide_eq_true_eq] at h1 h2 ⊢
      exact le_trans h2 h1
    have htotal : ∀ a b : VideoRecord,
        (decide (b.view_count ≤ a.view_count) || decide (a.view_count ≤ b.view_count)) = true := by
      intro a b
      simp only [Bool.or_eq_true, decide_eq_true_eq]
      exact le_total _ _
    have hs := List.sorted_mergeSort htrans htotal rs
    unfold sort_results
    rw [if_pos (by decide : (("View Count" : String) == "View Count") = true)]
    exact hs.imp (fun hab => by simpa using hab)
  · have hne : (sort_option == "View Count") = false := by
      simpa using h
    have htrans : ∀ a b c : VideoRecord,
        decide (b.outlier_multiplier ≤ a.outlier_multiplier) = true →
        decide (c.outlier_multiplier ≤ b.outlier_multiplier) = true →
        decide (c.outlier_multiplier ≤ a.outlier_multiplier) = true := by
      intro a b c h1 h2
      simp only [decide_eq_true_eq] at h1 h2 ⊢
      exact le_trans h2 h1
    have htotal : ∀ a b : VideoRecord,
        (decide (b.outlier_multiplier ≤ a.outlier_multiplier)
          || decide (a.outlier_multiplier ≤ b.outlier_multiplier)) = true := by
      intro a b
      simp only [Bool.or_eq_true, decide_eq_true_eq]
      exact le_total _ _
    have hs := List.sorted_mergeSort htrans htotal rs
    unfold sort_results
    rw [if_neg (by simp [hne])]
    exact hs.imp (fun hab => by simpa using hab)

/-- Witness for C10 at two concrete records under both sort options. -/
theorem c10_sorted_before_cap_witness :
    (sort_results "View Count"
      [⟨"a", "", "", "", "", 100, 0, 5, "", "", "", 0⟩,
       ⟨"b", "", "", "", "", 900, 0, 1, "", "", "", 0⟩]).Pairwise
        (fun a b => b.view_count ≤ a.view_count)
    ∧ (sort_results "Outlier Score"
      [⟨"a", "", "", "", "", 100, 0, 5, "", "", "", 0⟩,
       ⟨"b", "", "", "", "", 900, 0, 1, "", "", "", 0⟩]).Pairwise
        (fun a b => b.outlier_multiplier ≤ a.outlier_multiplier) := by
  constructor
  · exact (c10_sorted_before_cap "View Count"
      [⟨"a", "", "", "", "", 100, 0, 5, "", "", "", 0⟩,
       ⟨"b", "", "", "", "", 900, 0, 1, "", "", "", 0⟩]).2.1 rfl
  · exact (c10_sorted_before_cap "Outlier Score"
      [⟨"a", "", "", "", "", 100, 0, 5, "", "", "", 0⟩,
       ⟨"b", "", "", "", "", 900, 0, 1, "", "", "", 0⟩]).2.2.1 (by decide)

/-- Claim C4: the collection never returns more than cap items, it equals the
uncapped qualifying stream truncated to cap (so it returns fewer than cap
only when that upstream stream is exhausted), pagination stops early once
the cap is reached even mid-page (appending further upstream pages changes
nothing, including the request count), and the source truncation of app.py
line 455 caps the displayed results at 10. -/
theorem c4_collect_cap (pages : List (Except Unit (List UploadItem))) (threshold : ℚ)
    (cap : Nat) :
    (collect pages threshold cap).1.length ≤ cap
    ∧ (collect pages threshold cap).1 = (collect_all threshold pages).take cap
    ∧ (∀ extra, 0 < cap → cap ≤ (collect pages threshold cap).1.length →
        collect (pages ++ extra) threshold cap = collect pages threshold cap)
    ∧ ∀ (kw vt so : String) (mo : ℚ) (cav : String → Option ℚ)
        (items : List DetailItem),
        (search_results kw vt so mo cav items).length ≤ 10 := by
  refine ⟨?_, collect_eq_take pages threshold cap, fun extra hpos hge => ?_,
    fun kw vt so mo cav items => ?_⟩
  · rw [collect_eq_take, List.length_take]
    omega
  · exact collect_go_stop threshold cap pages [] 0 extra (by simpa using hpos) hge
  · unfold search_results
    rw [List.length_take]
    omega

/-- Witness for C4: a page of three qualifying items under cap 2 stops the
collection, and a later page is never requested. -/
theorem c4_collect_cap_witness :
    (collect [Except.ok [⟨10, 100, 5, 1⟩, ⟨20, 100, 5, 1⟩, ⟨30, 100, 5, 1⟩]] 180 2).1.length ≤ 2
    ∧ collect ([Except.ok [⟨10, 100, 5, 1⟩, ⟨20, 100, 5, 1⟩, ⟨30, 100, 5, 1⟩]]
          ++ [Except.ok [⟨40, 9, 0, 0⟩]]) 180 2 =
        collect [Except.ok [⟨10, 100, 5, 1⟩, ⟨20, 100, 5, 1⟩, ⟨30, 100, 5, 1⟩]] 180 2 := by
  constructor
  · exact (c4_collect_cap [Except.ok [⟨10, 100, 5, 1⟩, ⟨20, 100, 5, 1⟩, ⟨30, 100, 5, 1⟩]]
      180 2).1
  · exact (c4_collect_cap [Except.ok [⟨10, 100, 5, 1⟩, ⟨20, 100, 5, 1⟩, ⟨30, 100, 5, 1⟩]]
      180 2).2.2.1 [Except.ok [⟨40, 9, 0, 0⟩]] (by norm_num) (by decide)
